import Mathlib

/-!
Shallow embedding of the covidbot message-dispatch engine
(`covidbot/signal_interface.py`) and of the free-text region resolver
(`covidbot/single_command_interface.py`), together with theorems that
settle the specification claims about them.

Modelling conventions:
* Delays (Python floats) are embedded as exact rationals `ℚ`; the values
  appearing in the code (`0.7 * x`, `random.uniform(0.5, 2)` draws, the
  integers produced by `2 ^ ceil(x)`) are all handled exactly.
* Side effects (directory updates, external service calls, log lines,
  sleeps) are reified as data returned by the embedded functions, in the
  order the source performs them.
* Send outcomes (`await bot.send_message(...)`) are oracles: each input
  item carries the boolean outcome its send would produce.
* Python exceptions are embedded with `Except`: a function that can raise
  returns `Except PyError _`.
-/

set_option autoImplicit false

namespace Covidbot

/-! ## Dispatcher (`signal_interface.py`) -/

/-- Errors the embedded Python code can raise. -/
inductive PyError where
  /-- Python `IndexError`, e.g. indexing `arguments[0]` on an empty list. -/
  | indexError (msg : String)
  deriving DecidableEq

/-- Calls made against the user directory (`self.bot`), reified as data. -/
inductive DirEvent where
  /-- `self.bot.confirm_daily_report_send(userid)` (line 130). -/
  | confirm (userid : String)
  /-- `self.bot.disable_user(user_id)` (line 189, inside `backoff_timer`). -/
  | disable (userid : String)
  deriving DecidableEq

/-- Embedding of `SignalInterface.backoff_timer` (lines 169-193).

Python source:
```
if not failed:
    if current_backoff > 1:
        new_backoff = 0.7 * current_backoff
    else:
        new_backoff = current_backoff
else:
    self.bot.disable_user(user_id)
    new_backoff = 2 ^ ceil(current_backoff)
time.sleep(new_backoff)
return new_backoff
```
The `2 ^ ceil(current_backoff)` on the failure path is Python's bitwise
XOR (`^`), not exponentiation. Both operands are nonnegative at every
call site (the initial backoff is drawn from `uniform(0.5, 2)` and no
step can make it negative, see `backoff_nonneg`), and on nonnegative
integers Python's `^` agrees with `Nat.xor`, so we embed it as
`Nat.xor 2 (Int.ceil current_backoff).toNat`.

The returned pair is (new backoff, whether `disable_user` was called);
the caller sleeps for the new backoff. -/
def backoff_timer (current_backoff : ℚ) (failed : Bool) : ℚ × Bool :=
  if !failed then
    (if current_backoff > 1 then (7 / 10) * current_backoff else current_backoff, false)
  else
    (((Nat.xor 2 (Int.ceil current_backoff).toNat : ℕ) : ℚ), true)

/-- What happened for one item of a dispatch batch: the recipient, the
send outcome, the directory calls made for this item (in order), and the
delay slept after the send (= the new backoff returned by
`backoff_timer`). -/
structure SendRecord where
  userid : String
  success : Bool
  dirEvents : List DirEvent
  sleep : ℚ
  deriving DecidableEq

/-- Embedding of the per-item loop of `send_daily_reports` (lines
126-137). Each input item is `(userid, message, success)` where
`success` is the outcome `await bot.send_message(...)` would return.
On success the report is confirmed (line 130); in either case
`backoff_timer` is called with `not success` and its result becomes the
backoff for the next item. -/
def send_daily_reports_go (backoff_time : ℚ) :
    List (String × String × Bool) → List SendRecord
  | [] => []
  | (userid, _message, success) :: rest =>
    let confirms := if success then [DirEvent.confirm userid] else []
    let step := backoff_timer backoff_time (!success)
    let disables := if step.2 then [DirEvent.disable userid] else []
    { userid := userid, success := success, dirEvents := confirms ++ disables,
      sleep := step.1 } :: send_daily_reports_go step.1 rest

/-- Result of a dispatch batch: the per-item records and whether
`restart_service` was triggered at the end. -/
structure BatchResult where
  records : List SendRecord
  restarted : Bool
  deriving DecidableEq

/-- Embedding of `send_daily_reports` (lines 109-139). If there are no
unconfirmed reports the function returns before doing anything (line
115-116) and in particular never reaches `restart_service` (line 139);
otherwise it walks the reports in order and then always triggers the
restart. `init_backoff` stands for the `random.uniform(0.5, 2)` draw of
line 124. -/
def send_daily_reports (init_backoff : ℚ)
    (unconfirmed_reports : List (String × String × Bool)) : BatchResult :=
  if unconfirmed_reports = [] then
    { records := [], restarted := false }
  else
    { records := send_daily_reports_go init_backoff unconfirmed_reports,
      restarted := true }

/-- Embedding of the per-user loop of `send_message` (lines 155-165).
Each input item is `(user, success of primary send, success of the
appended-report send)`; the second outcome is only consulted when
`append_report` is true. `send_message` never confirms a report, so the
only directory events are the disables issued by `backoff_timer`. -/
def send_message_go (backoff_time : ℚ) (append_report : Bool) :
    List (String × Bool × Bool) → List SendRecord
  | [] => []
  | (user, succ1, succ2) :: rest =>
    let step1 := backoff_timer backoff_time (!succ1)
    let r1 : SendRecord :=
      { userid := user, success := succ1,
        dirEvents := if step1.2 then [DirEvent.disable user] else [],
        sleep := step1.1 }
    if append_report then
      let step2 := backoff_timer step1.1 (!succ2)
      let r2 : SendRecord :=
        { userid := user, success := succ2,
          dirEvents := if step2.2 then [DirEvent.disable user] else [],
          sleep := step2.1 }
      r1 :: r2 :: send_message_go step2.1 append_report rest
    else
      r1 :: send_message_go step1.1 append_report rest

/-- Embedding of `send_message` (lines 141-167). When `users` is empty
the code substitutes the list of all users (line 149-150); the loop then
runs over that list and `restart_service` is reached unconditionally at
line 167 — even when the substituted list is itself empty and no send
was attempted. -/
def send_message (init_backoff : ℚ) (users : List (String × Bool × Bool))
    (all_users : List (String × Bool × Bool)) (append_report : Bool) : BatchResult :=
  let users := if users = [] then all_users else users
  { records := send_message_go init_backoff append_report users,
    restarted := true }

/-- Log lines emitted by `restart_service`, reified as data. -/
inductive LogEvent where
  /-- `self.log.warning(...)`. -/
  | warning (msg : String)
  /-- `self.log.error(f'.. exited with ..')` with the process return code. -/
  | cmd_exited (returncode : ℤ)
  deriving DecidableEq

/-- Embedding of `restart_service` (lines 198-214), as a function of the
return code of `supervisorctl restart signald signalbot`. A non-zero
return code is logged and the function simply returns (line 210-213);
no path raises, which the `Except` result makes explicit: the value is
always `Except.ok`. -/
def restart_service (returncode : ℤ) : Except PyError (List LogEvent) :=
  Except.ok (LogEvent.warning "Try to restart signald and signalbot" ::
    (if returncode ≠ 0 then
      [LogEvent.cmd_exited returncode]
    else
      [LogEvent.warning "Restarted signalbot service"]))

/-! ## Query resolver (`single_command_interface.py`, `run`, lines 131-181)

The resolver body of `run` processes one unanswered mention at a time.
We embed the processing of a single mention. Text is `List Char`; the
two external collaborators are oracles:
* `search` embeds `self.data.search_district_by_name(argument)`,
  returning `(district id, matched name)` pairs;
* `find_location` embeds
  `self.location_service.find_location(text, restrict_type)`,
  returning district ids.
Calls to the two services are reified in a call trace so that claims
about which services were invoked can be stated. -/

/-- Characters removed by the chained `.replace` calls of line 141:
`message.replace(",", "").replace(".", "").replace("!", "").replace("?", "")`. -/
def isStrippedPunct (c : Char) : Bool :=
  c = ',' || c = '.' || c = '!' || c = '?'

/-- Helper for Python's `str.split()` with no separator: split on runs of
whitespace, discarding empty pieces. `acc` holds the current token,
reversed. -/
def splitWhitespaceAux : List Char → List Char → List (List Char)
  | [], acc => if acc = [] then [] else [acc.reverse]
  | c :: rest, acc =>
    if c.isWhitespace then
      if acc = [] then splitWhitespaceAux rest []
      else acc.reverse :: splitWhitespaceAux rest []
    else splitWhitespaceAux rest (c :: acc)

/-- Embedding of line 141:
`arguments = message.replace(",", "").replace(".", "").replace("!", "").replace("?", "").strip().split()`.
Removing the four punctuation characters everywhere is a filter; the
`.strip()` followed by `.split()` (no separator) is exactly
whitespace-splitting with empty pieces dropped. -/
def tokenize (message : List Char) : List (List Char) :=
  splitWhitespaceAux (message.filter (fun c => !isStrippedPunct c)) []

/-- Embedding of `" ".join(tokens)`. The tokens produced by `tokenize`
contain no whitespace, so the `.strip()` the source applies to the
joined window (line 151) is the identity and is not modelled. -/
def joinTokens (tokens : List (List Char)) : List Char :=
  (tokens.intersperse [' ']).flatten

/-- Calls made against the two external lookup services, reified. -/
inductive ExtCall where
  /-- `self.data.search_district_by_name(argument)` (line 152). -/
  | region_search (query : List Char)
  /-- `self.location_service.find_location(text, restrict_type)`
  (lines 160 and 164; `restrict_type` defaults to false). -/
  | location_find (query : List Char) (restrict_type : Bool)
  deriving DecidableEq

/-- Python truthiness of the `district_id` variable (`None` and `0` are
falsy, every other int is truthy), used at lines 159 and 169. -/
def pyTruthy : Option ℕ → Bool
  | none => false
  | some n => n != 0

/-- Embedding of the gazetteer loop (lines 150-156):
```
for i in range(min(len(arguments), 3), 0, -1):
    argument = " ".join(arguments[:i]).strip()
    districts_query = self.data.search_district_by_name(argument)
    if districts_query:
        if len(districts_query) <= 2:
            district_id = districts_query[0][0]
            break
```
The recursion argument is the current window size `i`; the function is
called with `min(len(arguments), 3)`. It returns the district id
assigned by the loop (none when the loop never breaks) together with the
`region_search` calls made, in order. A query returning no candidates,
or three or more, does not break: the window shrinks. -/
def gazetteer_loop (search : List Char → List (ℕ × List Char))
    (arguments : List (List Char)) : ℕ → Option ℕ × List ExtCall
  | 0 => (none, [])
  | i + 1 =>
    let argument := joinTokens (arguments.take (i + 1))
    match search argument with
    | [] =>
      let r := gazetteer_loop search arguments i
      (r.1, ExtCall.region_search argument :: r.2)
    | d :: ds =>
      if ds.length + 1 ≤ 2 then
        (some d.1, [ExtCall.region_search argument])
      else
        let r := gazetteer_loop search arguments i
        (r.1, ExtCall.region_search argument :: r.2)

/-- Observable outcome of processing one mention: the final value of the
`district_id` variable, the external lookup calls made (in order),
whether `set_message_answered` was called, and whether the mention was
discarded by the noise heuristic. -/
structure MentionOutcome where
  district_id : Option ℕ
  calls : List ExtCall
  answered : Bool
  discarded : Bool
  deriving DecidableEq

/-- Embedding of the body of `run` for a single unanswered mention
(lines 140-180). The `and` of line 144 evaluates `len(arguments[0])`
first, so an empty token list raises `IndexError` before anything else
happens. On the discard path (lines 144-148) the mention is marked
answered and no lookup service is invoked. Otherwise the gazetteer loop
runs; the OSM fallback of lines 159-166 runs whenever `district_id` is
Python-falsy — note that covers both `None` and a gazetteer hit on
district `0`, and that a fallback branch that assigns nothing leaves the
earlier `district_id` value in place. Line 180 marks the mention
answered on every non-raising path. -/
def run_mention (search : List Char → List (ℕ × List Char))
    (find_location : List Char → Bool → List ℕ)
    (message : List Char) : Except PyError MentionOutcome :=
  match tokenize message with
  | [] => Except.error (PyError.indexError "list index out of range")
  | a0 :: rest =>
    let arguments := a0 :: rest
    if a0.length < 4 ∧ arguments.length > 3 then
      Except.ok { district_id := none, calls := [], answered := true, discarded := true }
    else
      let gaz := gazetteer_loop search arguments (min arguments.length 3)
      if pyTruthy gaz.1 then
        Except.ok { district_id := gaz.1, calls := gaz.2, answered := true, discarded := false }
      else
        let fulltext := joinTokens arguments
        let results := find_location fulltext false
        if results.length = 1 then
          Except.ok { district_id := results.head?,
                      calls := gaz.2 ++ [ExtCall.location_find fulltext false],
                      answered := true, discarded := false }
        else if results.length > 1 then
          let results2 := find_location fulltext true
          if results2.length = 1 then
            Except.ok { district_id := results2.head?,
                        calls := gaz.2 ++ [ExtCall.location_find fulltext false,
                                           ExtCall.location_find fulltext true],
                        answered := true, discarded := false }
          else
            Except.ok { district_id := gaz.1,
                        calls := gaz.2 ++ [ExtCall.location_find fulltext false,
                                           ExtCall.location_find fulltext true],
                        answered := true, discarded := false }
        else
          Except.ok { district_id := gaz.1,
                      calls := gaz.2 ++ [ExtCall.location_find fulltext false],
                      answered := true, discarded := false }

/-! ## Spec-side descriptions

Definitions in this section transcribe the specification's wording of
the resolver's tiered strategy, to be compared with the embedded code
above. They are clearly marked with a `spec_` prefix. -/

/-- Modelled from the spec's words (claim C3): a window of size `i` is
accepted exactly when the region-index search on the joined first `i`
tokens "yields exactly 1 or 2 candidates", in which case "the first
candidate" is the result; a window yielding 0 or ≥ 3 candidates yields
nothing. -/
def spec_window_accept (search : List Char → List (ℕ × List Char))
    (arguments : List (List Char)) (i : ℕ) : Option ℕ :=
  let candidates := search (joinTokens (arguments.take i))
  if candidates.length = 1 ∨ candidates.length = 2 then
    candidates.head?.map Prod.fst
  else
    none

/-- Modelled from the spec's words: the window sizes tried, "from
`min(tokenCount, 3)` down to `1`": `spec_windows m = [m, m-1, ..., 1]`. -/
def spec_windows : ℕ → List ℕ
  | 0 => []
  | i + 1 => (i + 1) :: spec_windows i

/-- Modelled from the spec's words (claim C3): the gazetteer phase
returns the accepted candidate of the first accepted window in the
descending order of `spec_windows`, and nothing when no window is
accepted. -/
def spec_gazetteer (search : List Char → List (ℕ × List Char))
    (arguments : List (List Char)) : Option ℕ :=
  (spec_windows (min arguments.length 3)).findSome?
    (spec_window_accept search arguments)

/-- Modelled from the spec's words (claim C3): the prefix of the given
window list that is actually searched — every window up to and including
the first accepted one, or all of them when none is accepted ("it
accepts the first candidate and stops searching"). -/
def spec_tried_windows (search : List Char → List (ℕ × List Char))
    (arguments : List (List Char)) : List ℕ → List ℕ
  | [] => []
  | i :: rest =>
    if (spec_window_accept search arguments i).isSome then [i]
    else i :: spec_tried_windows search arguments rest

/-- Modelled from the spec's words (claim C4): the place-lookup fallback
accepts a single unrestricted hit; on more than one hit it re-queries
with the type restriction and accepts only a single restricted hit; in
every other case it yields nothing. -/
def spec_fallback_id (find_location : List Char → Bool → List ℕ)
    (fulltext : List Char) : Option ℕ :=
  let results := find_location fulltext false
  if results.length = 1 then
    results.head?
  else if results.length > 1 then
    let results2 := find_location fulltext true
    if results2.length = 1 then results2.head? else none
  else
    none

/-- Modelled from the spec's words (claim C4): the fallback performs one
unrestricted place lookup on the full text, followed by exactly one
type-restricted re-query when the unrestricted result has more than one
hit. -/
def spec_fallback_calls (find_location : List Char → Bool → List ℕ)
    (fulltext : List Char) : List ExtCall :=
  ExtCall.location_find fulltext false ::
    (if (find_location fulltext false).length > 1 then
      [ExtCall.location_find fulltext true]
    else
      [])

/-! ## Supporting lemmas -/

/-- The gazetteer loop at any window bound `k` computes exactly the
spec-side description: result = first accepted window of `[k, ..., 1]`,
calls = one region search per tried window, in descending order. -/
theorem gazetteer_loop_eq_spec (search : List Char → List (ℕ × List Char))
    (arguments : List (List Char)) (k : ℕ) :
    gazetteer_loop search arguments k =
      ((spec_windows k).findSome? (spec_window_accept search arguments),
       (spec_tried_windows search arguments (spec_windows k)).map
         (fun i => ExtCall.region_search (joinTokens (arguments.take i)))) := by
  induction k with
  | zero => rfl
  | succ i ih =>
    simp only [gazetteer_loop, spec_windows, List.findSome?, spec_tried_windows]
    cases h : search (joinTokens (arguments.take (i + 1))) with
    | nil =>
      simp [spec_window_accept, h, ih]
    | cons d ds =>
      by_cases hlen : ds.length + 1 ≤ 2
      · have hds : ds = [] ∨ ds.length = 1 := by
          rcases ds with _ | ⟨x, xs⟩
          · exact Or.inl rfl
          · right; simp only [List.length_cons] at hlen ⊢; omega
        simp [spec_window_accept, h, hlen, hds]
      · have hds : ¬ (ds = [] ∨ ds.length = 1) := by
          intro hor
          rcases hor with rfl | h1
          · exact hlen (by simp)
          · exact hlen (by omega)
        simp [spec_window_accept, h, hlen, hds, ih]

/-- The disable flag returned by `backoff_timer` is exactly the `failed`
flag it was given: `disable_user` is called precisely on failure. -/
theorem backoff_timer_snd (b : ℚ) (f : Bool) : (backoff_timer b f).2 = f := by
  cases f <;> simp [backoff_timer]

/-- The new backoff is never negative when the old one was not. -/
theorem backoff_timer_nonneg (b : ℚ) (f : Bool) (hb : 0 ≤ b) :
    0 ≤ (backoff_timer b f).1 := by
  cases f
  · simp only [backoff_timer, Bool.not_false, if_true]
    split
    · linarith
    · exact hb
  · simp only [backoff_timer, Bool.not_true]
    exact Nat.cast_nonneg _

/-- One record per input item. -/
theorem send_daily_reports_go_length (b : ℚ)
    (items : List (String × String × Bool)) :
    (send_daily_reports_go b items).length = items.length := by
  induction items generalizing b with
  | nil => rfl
  | cons it rest ih =>
    obtain ⟨u, m, s⟩ := it
    simp [send_daily_reports_go, ih]

/-- Records carry the input recipients in the input order. -/
theorem send_daily_reports_go_userids (b : ℚ)
    (items : List (String × String × Bool)) :
    (send_daily_reports_go b items).map SendRecord.userid =
      items.map (fun it => it.1) := by
  induction items generalizing b with
  | nil => rfl
  | cons it rest ih =>
    obtain ⟨u, m, s⟩ := it
    simp [send_daily_reports_go, ih]

/-- Each record's directory trace is exactly one terminal event:
a confirm on success, a disable on failure. -/
theorem send_daily_reports_go_events (b : ℚ)
    (items : List (String × String × Bool)) :
    (send_daily_reports_go b items).all
      (fun r => decide (r.dirEvents =
        if r.success then [DirEvent.confirm r.userid]
        else [DirEvent.disable r.userid])) = true := by
  induction items generalizing b with
  | nil => rfl
  | cons it rest ih =>
    obtain ⟨u, m, s⟩ := it
    cases s <;> simp [send_daily_reports_go, backoff_timer_snd, ih]

/-! ## Claims -/

/-- **C1** — The claim says the delay after a failed send strictly
increases and at least doubles. The code computes `2 ^ ceil(delay)`
where `^` is Python's bitwise XOR (the operator typo noted in the spec's
design notes): at prior delay 2 s — a value the initial
`uniform(0.5, 2)` draw can produce — the new delay is `2 XOR 2 = 0`,
which is neither at least double nor any increase at all. -/
theorem C1_failure_backoff_not_doubling :
    (backoff_timer 2 true).1 = 0 ∧
    ¬ (2 * (2 : ℚ) ≤ (backoff_timer 2 true).1) ∧
    ¬ ((2 : ℚ) < (backoff_timer 2 true).1) := by
  have h : (backoff_timer 2 true).1 = 0 := by
    norm_num [backoff_timer]
    decide
  refine ⟨h, ?_, ?_⟩ <;> rw [h] <;> norm_num

/-- **C2** — The claim says the delay stays within the configured
bounds throughout a batch, in particular never below the floor (the
spec puts the floor at 0.1–0.5 s, and the initial draw itself is at
least 0.5 s). In the batch that starts at delay 2 s and whose single
send fails, the XOR-typo backoff makes the dispatcher sleep exactly
0 s, below every positive floor. -/
theorem C2_delay_escapes_floor :
    (send_daily_reports 2 [("alice", "report", false)]).records.map
      SendRecord.sleep = [0] := by
  norm_num [send_daily_reports, send_daily_reports_go, backoff_timer]
  decide

/-- **C6** — In every batch the number of send attempts equals the
number of input items, the attempts happen in the caller-supplied order
(the record trace carries exactly the input recipients, in order), and
every item ends in exactly one terminal state: confirmed delivered on
success, recipient disabled on failure. -/
theorem C6_one_attempt_per_item_in_order (b : ℚ)
    (items : List (String × String × Bool)) :
    (send_daily_reports b items).records.length = items.length ∧
    (send_daily_reports b items).records.map SendRecord.userid =
      items.map (fun it => it.1) ∧
    (send_daily_reports b items).records.all
      (fun r => decide (r.dirEvents =
        if r.success then [DirEvent.confirm r.userid]
        else [DirEvent.disable r.userid])) = true := by
  by_cases h : items = []
  · subst h; exact ⟨rfl, rfl, rfl⟩
  · simp only [send_daily_reports, if_neg h]
    exact ⟨send_daily_reports_go_length b items,
      send_daily_reports_go_userids b items,
      send_daily_reports_go_events b items⟩

/-- **C7** — After a successful send the item is confirmed delivered
(`confirm_daily_report_send`), and the new delay is `0.7` times the old
one when the old one exceeded 1 s and unchanged otherwise; the batch
continues on the remaining items with that new delay. -/
theorem C7_success_decay (b : ℚ) (u msg : String)
    (rest : List (String × String × Bool)) :
    send_daily_reports_go b ((u, msg, true) :: rest) =
      { userid := u, success := true, dirEvents := [DirEvent.confirm u],
        sleep := if b > 1 then (7 / 10) * b else b } ::
        send_daily_reports_go (if b > 1 then (7 / 10) * b else b) rest := by
  simp [send_daily_reports_go, backoff_timer]

/-- **C8** — A failed send disables exactly that item's recipient (and
confirms nothing), the dispatcher raises no exception, and the batch
continues with precisely the remaining items in order — the failed item
is never re-attempted within the batch. -/
theorem C8_failure_disables_and_continues (b : ℚ) (u msg : String)
    (rest : List (String × String × Bool)) :
    ∃ tail : List SendRecord,
      send_daily_reports_go b ((u, msg, false) :: rest) =
        { userid := u, success := false, dirEvents := [DirEvent.disable u],
          sleep := (backoff_timer b true).1 } :: tail ∧
      tail.length = rest.length ∧
      tail.map SendRecord.userid = rest.map (fun it => it.1) := by
  refine ⟨send_daily_reports_go (backoff_timer b true).1 rest, ?_,
    send_daily_reports_go_length _ rest, send_daily_reports_go_userids _ rest⟩
  simp [send_daily_reports_go, backoff_timer_snd]

/-- **C9 (counterexample)** — The claim says the transport restart is
triggered if and only if at least one item was attempted. In
`send_message` with an empty explicit user list and an empty all-users
directory, zero sends are attempted and the restart is still
triggered. -/
theorem C9_counterexample :
    (send_message 1 [] [] false).records = [] ∧
    (send_message 1 [] [] false).restarted = true :=
  ⟨rfl, rfl⟩

/-- **C9 (amended)** — In the daily-report batch the restart is
triggered iff at least one item was attempted (in particular regardless
of which sends failed); `send_message` triggers it unconditionally at
batch end, even for an empty batch; a non-zero outcome of the recovery
command is logged and the recovery call always returns normally, never
raising. -/
theorem C9_restart_policy (b : ℚ) (reports : List (String × String × Bool))
    (users all_users : List (String × Bool × Bool)) (append_report : Bool)
    (returncode : ℤ) (hrc : returncode ≠ 0) :
    ((send_daily_reports b reports).restarted = true ↔ reports ≠ []) ∧
    (send_message b users all_users append_report).restarted = true ∧
    restart_service returncode =
      Except.ok [LogEvent.warning "Try to restart signald and signalbot",
                 LogEvent.cmd_exited returncode] := by
  refine ⟨?_, rfl, ?_⟩
  · by_cases h : reports = [] <;> simp [send_daily_reports, h]
  · simp [restart_service, hrc]

/-- Witness for `C9_restart_policy` at a concrete batch and a concrete
non-zero return code. -/
theorem C9_restart_policy_witness :
    ((send_daily_reports 1 [("alice", "report", false)]).restarted = true ↔
      ([("alice", "report", false)] : List (String × String × Bool)) ≠ []) ∧
    (send_message 1 [] [] true).restarted = true ∧
    restart_service 7 =
      Except.ok [LogEvent.warning "Try to restart signald and signalbot",
                 LogEvent.cmd_exited 7] :=
  C9_restart_policy 1 [("alice", "report", false)] [] [] true 7 (by decide)

/-- Splitting a list of whitespace characters yields no tokens. -/
theorem splitWhitespaceAux_all_ws (l : List Char)
    (h : ∀ c ∈ l, c.isWhitespace = true) : splitWhitespaceAux l [] = [] := by
  induction l with
  | nil => rfl
  | cons c rest ih =>
    have hc : c.isWhitespace = true := h c (List.mem_cons_self c rest)
    simp only [splitWhitespaceAux, hc, if_true, reduceIte]
    exact ih fun x hx => h x (List.mem_cons_of_mem c hx)

/-- A message of nothing but whitespace and the stripped punctuation
characters normalizes to an empty token list. -/
theorem tokenize_eq_nil_of_noise (message : List Char)
    (h : ∀ c ∈ message, c.isWhitespace = true ∨ isStrippedPunct c = true) :
    tokenize message = [] := by
  unfold tokenize
  apply splitWhitespaceAux_all_ws
  intro c hc
  rw [List.mem_filter] at hc
  rcases h c hc.1 with hw | hp
  · exact hw
  · rw [hp] at hc
    simp at hc

/-- **C3** — The gazetteer phase is exactly the spec's
longest-prefix-first policy: it returns the first candidate of the first
window, taken from `min(tokenCount, 3)` down to `1`, whose region
search yields exactly 1 or 2 candidates (none when no window qualifies),
and it performs one region search per window up to and including the
accepting one — a window yielding 0 or ≥ 3 candidates is never accepted,
the next smaller window is searched instead. -/
theorem C3_gazetteer_window_policy (search : List Char → List (ℕ × List Char))
    (arguments : List (List Char)) :
    gazetteer_loop search arguments (min arguments.length 3) =
      (spec_gazetteer search arguments,
       (spec_tried_windows search arguments
          (spec_windows (min arguments.length 3))).map
         (fun i => ExtCall.region_search (joinTokens (arguments.take i)))) :=
  gazetteer_loop_eq_spec search arguments (min arguments.length 3)

/-- **C4** — When normalization leaves at least one token, the discard
heuristic does not fire, and no gazetteer window is accepted, the
resolver behaves exactly as the spec's fallback tier describes: one
unrestricted place lookup on the full token text, accepted when it has
exactly one hit; on more than one hit exactly one type-restricted
re-query, accepted only when it has exactly one hit; in every other
case the resolution ends with no region. -/
theorem C4_place_lookup_fallback (search : List Char → List (ℕ × List Char))
    (find_location : List Char → Bool → List ℕ) (message : List Char)
    (a0 : List Char) (rest : List (List Char))
    (htok : tokenize message = a0 :: rest)
    (hkeep : ¬ (a0.length < 4 ∧ (a0 :: rest).length > 3))
    (hgaz : (gazetteer_loop search (a0 :: rest)
      (min (a0 :: rest).length 3)).1 = none) :
    run_mention search find_location message =
      Except.ok
        { district_id :=
            spec_fallback_id find_location (joinTokens (a0 :: rest)),
          calls := (gazetteer_loop search (a0 :: rest)
              (min (a0 :: rest).length 3)).2 ++
            spec_fallback_calls find_location (joinTokens (a0 :: rest)),
          answered := true, discarded := false } := by
  simp only [run_mention, htok]
  rw [if_neg hkeep]
  simp only [hgaz, pyTruthy]
  by_cases h1 : (find_location (joinTokens (a0 :: rest)) false).length = 1
  · simp [spec_fallback_id, spec_fallback_calls, h1]
  · by_cases h2 : (find_location (joinTokens (a0 :: rest)) false).length > 1
    · by_cases h3 : (find_location (joinTokens (a0 :: rest)) true).length = 1
      · simp [spec_fallback_id, spec_fallback_calls, h1, h2, h3]
      · simp [spec_fallback_id, spec_fallback_calls, h1, h2, h3, hgaz]
    · simp [spec_fallback_id, spec_fallback_calls, h1, h2, hgaz]

/-- Witness for `C4_place_lookup_fallback`: a one-token message, a
region index with no entries and a place lookup with no hits. -/
theorem C4_place_lookup_fallback_witness :
    run_mention (fun _ => []) (fun _ _ => []) "Atlantis".data =
      Except.ok
        { district_id :=
            spec_fallback_id (fun _ _ => []) (joinTokens ["Atlantis".data]),
          calls := (gazetteer_loop (fun _ => []) ["Atlantis".data]
              (min ["Atlantis".data].length 3)).2 ++
            spec_fallback_calls (fun _ _ => []) (joinTokens ["Atlantis".data]),
          answered := true, discarded := false } :=
  C4_place_lookup_fallback (fun _ => []) (fun _ _ => []) "Atlantis".data
    "Atlantis".data [] rfl (by decide) rfl

/-- **C5** — A mention whose first token is shorter than 4 characters
and which has more than 3 tokens is discarded: the resolution carries no
region, neither the region index nor the place lookup is invoked, and
the mention is still marked answered. -/
theorem C5_discard_heuristic (search : List Char → List (ℕ × List Char))
    (find_location : List Char → Bool → List ℕ) (message : List Char)
    (a0 : List Char) (rest : List (List Char))
    (htok : tokenize message = a0 :: rest)
    (hlen : a0.length < 4) (hcnt : (a0 :: rest).length > 3) :
    run_mention search find_location message =
      Except.ok { district_id := none, calls := [], answered := true,
                  discarded := true } := by
  simp only [run_mention, htok]
  rw [if_pos ⟨hlen, hcnt⟩]

/-- Witness for `C5_discard_heuristic`: the four-token message
`"ab c d e"` whose first token has two characters. -/
theorem C5_discard_heuristic_witness :
    run_mention (fun _ => []) (fun _ _ => []) "ab c d e".data =
      Except.ok { district_id := none, calls := [], answered := true,
                  discarded := true } :=
  C5_discard_heuristic (fun _ => []) (fun _ _ => []) "ab c d e".data
    ['a', 'b'] [['c'], ['d'], ['e']] rfl (by decide) (by decide)

/-- **C10** — A mention text consisting only of whitespace and the
punctuation characters `,.!?` normalizes to an empty token list, and the
discard check's `arguments[0]` then raises `IndexError` instead of
resolving to NotFound; for every text with at least one token after
normalization no error is raised. -/
theorem C10_empty_token_crash (search : List Char → List (ℕ × List Char))
    (find_location : List Char → Bool → List ℕ) :
    (∀ message : List Char,
        (∀ c ∈ message, c.isWhitespace = true ∨ isStrippedPunct c = true) →
        tokenize message = [] ∧
        run_mention search find_location message =
          Except.error (PyError.indexError "list index out of range")) ∧
    (∀ message : List Char, tokenize message ≠ [] →
        ∃ o, run_mention search find_location message = Except.ok o) := by
  constructor
  · intro message h
    have htok : tokenize message = [] := tokenize_eq_nil_of_noise message h
    exact ⟨htok, by simp [run_mention, htok]⟩
  · intro message hne
    obtain ⟨a0, rest, htok⟩ := List.exists_cons_of_ne_nil hne
    cases hrun : run_mention search find_location message with
    | ok o => exact ⟨o, rfl⟩
    | error e =>
      exfalso
      simp only [run_mention, htok] at hrun
      repeat' split at hrun
      all_goals exact Except.noConfusion hrun

/-- Witness for `C10_empty_token_crash`: the message `" ,.!? "` crashes
with `IndexError`. -/
theorem C10_empty_token_crash_witness :
    tokenize " ,.!? ".data = [] ∧
    run_mention (fun _ => []) (fun _ _ => []) " ,.!? ".data =
      Except.error (PyError.indexError "list index out of range") :=
  (C10_empty_token_crash (fun _ => []) (fun _ _ => [])).1 " ,.!? ".data
    (by decide)

end Covidbot
